import Mathlib

/-!
Verification development for the xhs_scraper repository.

The definitions below are shallow embeddings of the pure text-processing
core of `xhs_top_user_recent_posts.py` and `xiaohongshu_explore_scraper.py`:
the Chinese numeral normalizer, the publish-time classifier, the positional
card-field extractor, the order-preserving deduplicator, the detail-page
enrichment update, and the tiered user resolver.

Modelling conventions:
* Python `None` becomes `Option.none`; strings are Lean `String`s viewed as
  lists of Unicode characters (`String.data`).
* The regex character class `\d` is modelled as the ASCII digits `0-9`
  (the repertoire appearing in this scraper's inputs), `\s` and `str.strip`
  as the common whitespace characters listed in `pyIsSpace`, and `\w` as
  ASCII alphanumerics, underscore, and CJK ideographs (`pyIsWordChar`).
* Python's `int(number * unit)` on the nonnegative decimals produced by the
  numeral grammar is modelled by exact natural-number arithmetic
  (`(I * 10^k + F) * mult / 10^k` with truncating division), i.e. the exact
  value of truncation toward zero.
* Machine `int`s are modelled as `Int` (Python integers are unbounded).
-/

/-- Whitespace characters recognised by the model of Python `str.strip` and
of the regex class `\s` (ASCII whitespace plus the two non-ASCII spaces
common in this data: no-break space and ideographic space). -/
def pyIsSpace (c : Char) : Bool :=
  c = ' ' || c = '\t' || c = '\n' || c = '\r' ||
  c = '\x0b' || c = '\x0c' || c = ' ' || c = '　'

/-- Model of Python `str.strip()` on the character list. -/
def pyStripList (cs : List Char) : List Char :=
  ((cs.dropWhile pyIsSpace).reverse.dropWhile pyIsSpace).reverse

/-- Model of Python `str.strip()`. -/
def pyStrip (s : String) : String :=
  String.mk (pyStripList s.data)

/-- Model of Python `str.lower()` restricted to ASCII letters (the only
cased characters appearing in these inputs). -/
def pyLowerChar (c : Char) : Char :=
  if 'A' ≤ c && c ≤ 'Z' then Char.ofNat (c.toNat + 32) else c

/-- Model of Python `str.lower()`. -/
def pyLower (s : String) : String :=
  String.mk (s.data.map pyLowerChar)

/-- Model of `re.sub(r"粉丝|关注|获赞|赞|人|\+", "", t)` in `_parse_cn_number`:
delete every occurrence of the literal alternatives, scanning left to right.
None of the deleted literals contains a digit. -/
def removeLabels : List Char → List Char
  | [] => []
  | '粉' :: '丝' :: rest => removeLabels rest
  | '关' :: '注' :: rest => removeLabels rest
  | '获' :: '赞' :: rest => removeLabels rest
  | '赞' :: rest => removeLabels rest
  | '人' :: rest => removeLabels rest
  | '+' :: rest => removeLabels rest
  | c :: rest => c :: removeLabels rest

/-- The leftmost match of the numeral regex `(\d+(?:\.\d+)?)(万|千)?`:
integer digits, optional fractional digits, optional unit suffix. -/
structure NumToken where
  intPart : List Char
  fracPart : List Char
  unit : Option Char
deriving Repr, DecidableEq

/-- Digit characters of the model of `\d` (ASCII `0-9`). -/
def isAsciiDigit (c : Char) : Bool := c.isDigit

/-- Value of a digit string read in base 10. -/
def natOfDigits (ds : List Char) : Nat :=
  ds.foldl (fun a c => a * 10 + (c.toNat - 48)) 0

/-- Scan for the leftmost match of `(\d+(?:\.\d+)?)(万|千)?`, as
`re.search` does: greedy digit run, then an optional `.`‑digits group
(only when at least one digit follows the dot), then an optional unit
immediately after. -/
def findNumToken : List Char → Option NumToken
  | [] => none
  | c :: rest =>
    if isAsciiDigit c then
      let ds := c :: rest.takeWhile isAsciiDigit
      let after := rest.dropWhile isAsciiDigit
      let (fs, after2) :=
        match after with
        | '.' :: r =>
          if (r.takeWhile isAsciiDigit) ≠ [] then
            (r.takeWhile isAsciiDigit, r.dropWhile isAsciiDigit)
          else ([], after)
        | _ => ([], after)
      let u : Option Char :=
        match after2 with
        | '万' :: _ => some '万'
        | '千' :: _ => some '千'
        | _ => none
      some ⟨ds, fs, u⟩
    else findNumToken rest

/-- Multiplier of the optional unit suffix: `万` = 10 000, `千` = 1 000. -/
def unitMult (u : Option Char) : Nat :=
  match u with
  | some '万' => 10000
  | some '千' => 1000
  | _ => 1

/-- `int(number * unit_multiplier)` for the nonnegative decimal
`I.F` (fractional part `F` of `k` digits): exact truncation toward zero,
computed as `(I * 10^k + F) * mult / 10^k` with natural division. -/
def numTokenValue (t : NumToken) : Nat :=
  (natOfDigits t.intPart * 10 ^ t.fracPart.length + natOfDigits t.fracPart)
      * unitMult t.unit / 10 ^ t.fracPart.length

/-- Embedding of `_parse_cn_number` (xhs_top_user_recent_posts.py, lines
96-118): strip, delete the label literals, strip again, then evaluate the
leftmost numeral token; `none` when the input is empty or holds no digits. -/
def parseCnNumber (s : String) : Option Int :=
  let t := pyStrip s
  if t = "" then none
  else
    let t2 := pyStripList (removeLabels t.data)
    (findNumToken t2).map (fun tok => (numTokenValue tok : Int))

/-- Embedding of `_parse_like_count` (xiaohongshu_explore_scraper.py, lines
220-237): same numeral grammar, searched directly in the stripped text. -/
def parseLikeCount (s : Option String) : Option Int :=
  match s with
  | none => none
  | some s =>
    let t := pyStrip s
    if t = "" then none
    else (findNumToken t.data).map (fun tok => (numTokenValue tok : Int))

example : parseCnNumber "1.2万" = some 12000 := by decide
example : parseCnNumber "3千" = some 3000 := by decide
example : parseCnNumber "10+" = some 10 := by decide
example : parseCnNumber "" = none := by decide
example : parseCnNumber "1.2万粉丝" = some 12000 := by decide
example : parseLikeCount (some "1.2万") = some 12000 := by decide
example : parseCnNumber "粉丝" = none := by decide

/-- Character test at a position: the character at index `i` is an ASCII
digit. -/
def digitAt (cs : List Char) (i : Nat) : Bool :=
  match cs[i]? with
  | some c => isAsciiDigit c
  | none => false

/-- Character test at a position: the character at index `i` equals `c`. -/
def charAt (cs : List Char) (i : Nat) (c : Char) : Bool :=
  cs[i]? = some c

/-- Position matcher for `\d+<suf>` (greedy digit run immediately followed
by the literal suffix); returns the matched text. -/
def matchNumSuffix (suf : List Char) (cs : List Char) : Option (List Char) :=
  match cs with
  | [] => none
  | c :: rest =>
    if isAsciiDigit c then
      let ds := c :: rest.takeWhile isAsciiDigit
      let after := rest.dropWhile isAsciiDigit
      if suf.isPrefixOf after then some (ds ++ suf) else none
    else none

/-- Position matcher for `<d1><d2>\s*\d{1,2}:\d{2}` (the `昨天 HH:MM` and
`前天 HH:MM` shapes), with the regex's greedy-then-backtrack choice on the
one-or-two-digit hour; returns the matched text including the whitespace
the `\s*` consumed. -/
def matchDayClock (d1 d2 : Char) (cs : List Char) : Option (List Char) :=
  match cs with
  | c1 :: c2 :: rest =>
    if c1 = d1 && c2 = d2 then
      let ws := rest.takeWhile pyIsSpace
      let r := rest.dropWhile pyIsSpace
      if digitAt r 0 && digitAt r 1 && charAt r 2 ':' && digitAt r 3 && digitAt r 4 then
        some ([d1, d2] ++ ws ++ r.take 5)
      else if digitAt r 0 && charAt r 1 ':' && digitAt r 2 && digitAt r 3 then
        some ([d1, d2] ++ ws ++ r.take 4)
      else none
    else none
  | _ => none

/-- Position matcher for `\d{1,2}-\d{1,2}`, with the regex's greedy
backtracking on the first group and greedy second group. -/
def matchMMDD (cs : List Char) : Option (List Char) :=
  if digitAt cs 0 then
    if digitAt cs 1 then
      if charAt cs 2 '-' && digitAt cs 3 then
        if digitAt cs 4 then some (cs.take 5) else some (cs.take 4)
      else none
    else
      if charAt cs 1 '-' && digitAt cs 2 then
        if digitAt cs 3 then some (cs.take 4) else some (cs.take 3)
      else none
  else none

/-- Position matcher for `\d{4}-\d{1,2}-\d{1,2}`. -/
def matchYMD (cs : List Char) : Option (List Char) :=
  if digitAt cs 0 && digitAt cs 1 && digitAt cs 2 && digitAt cs 3 && charAt cs 4 '-' then
    let r := cs.drop 5
    if digitAt r 0 then
      if digitAt r 1 then
        if charAt r 2 '-' && digitAt r 3 then
          if digitAt r 4 then some (cs.take 10) else some (cs.take 9)
        else none
      else
        if charAt r 1 '-' && digitAt r 2 then
          if digitAt r 3 then some (cs.take 9) else some (cs.take 8)
        else none
    else none
  else none

/-- `re.search`: try the position matcher at each index, left to right,
returning the first (leftmost) match. -/
def searchFirst (m : List Char → Option (List Char)) : List Char → Option (List Char)
  | [] => none
  | c :: rest =>
    match m (c :: rest) with
    | some r => some r
    | none => searchFirst m rest

/-- Embedding of `_parse_publish_time_from_text`
(xiaohongshu_explore_scraper.py, lines 240-263): the seven patterns tried
in the source's order — minutes-ago, hours-ago, `昨天 HH:MM`, `前天 HH:MM`,
`MM-DD`, `YYYY-MM-DD`, and days-ago last — first match wins, returning the
matched substring. -/
def parsePublishTimeFromText (text : String) : Option String :=
  if text = "" then none
  else
    let cs := text.data
    ((searchFirst (matchNumSuffix "分钟前".data) cs <|>
      searchFirst (matchNumSuffix "小时前".data) cs <|>
      searchFirst (matchDayClock '昨' '天') cs <|>
      searchFirst (matchDayClock '前' '天') cs <|>
      searchFirst matchMMDD cs <|>
      searchFirst matchYMD cs <|>
      searchFirst (matchNumSuffix "天前".data) cs)).map String.mk

example : parsePublishTimeFromText "昨天 10:20" = some "昨天 10:20" := by decide
example : parsePublishTimeFromText "2024-03-01" = some "24-03" := by decide
example : parsePublishTimeFromText "no date here" = none := by decide
example : parsePublishTimeFromText "5天前 昨天 10:20" = some "昨天 10:20" := by decide
example : parsePublishTimeFromText "1小时前 2分钟前" = some "2分钟前" := by decide
example : parsePublishTimeFromText "3天前 01-02" = some "01-02" := by decide
example : parsePublishTimeFromText "3分钟前" = some "3分钟前" := by decide

/-- Position test for the card scanner's time regex
`\d+(?:分钟|小时|天)前|昨天|前天|\d{2}-\d{2}|\d{4}-\d{2}-\d{2}`
(extract_cards, line 520). -/
def stepATimeAt (cs : List Char) : Bool :=
  (matchNumSuffix "分钟前".data cs).isSome ||
  (matchNumSuffix "小时前".data cs).isSome ||
  (matchNumSuffix "天前".data cs).isSome ||
  "昨天".data.isPrefixOf cs ||
  "前天".data.isPrefixOf cs ||
  (digitAt cs 0 && digitAt cs 1 && charAt cs 2 '-' && digitAt cs 3 && digitAt cs 4) ||
  (digitAt cs 0 && digitAt cs 1 && digitAt cs 2 && digitAt cs 3 && charAt cs 4 '-' &&
    digitAt cs 5 && digitAt cs 6 && charAt cs 7 '-' && digitAt cs 8 && digitAt cs 9)

/-- Position test for the author-rejection regex
`\d+(?:分钟|小时|天)前|昨天|前天` (extract_cards, line 539): only the
relative-time shapes, no date shapes. -/
def relTimeAt (cs : List Char) : Bool :=
  (matchNumSuffix "分钟前".data cs).isSome ||
  (matchNumSuffix "小时前".data cs).isSome ||
  (matchNumSuffix "天前".data cs).isSome ||
  "昨天".data.isPrefixOf cs ||
  "前天".data.isPrefixOf cs

/-- `re.search` as a boolean: does the position test hold anywhere? -/
def searchAny (p : List Char → Bool) : List Char → Bool
  | [] => false
  | c :: rest => p (c :: rest) || searchAny p rest

/-- A line "looks like a time line" for the card scanner's step A. -/
def isTimeLine (line : String) : Bool := searchAny stepATimeAt line.data

/-- A line matches the author-rejection (relative-time-only) regex. -/
def isRelTimeLine (line : String) : Bool := searchAny relTimeAt line.data

example : isTimeLine "3天前" = true := by decide
example : isTimeLine "05-06" = true := by decide
example : isTimeLine "2024-03-01" = true := by decide
example : isRelTimeLine "03-04" = false := by decide
example : isRelTimeLine "3分钟前" = true := by decide

/-- A line counts as a like line for the card scanner's step B
(extract_cards, line 531): a full digit run, the single character `赞`, or
digits followed by `万`, and shorter than 10 characters. -/
def isLikeLine (line : String) : Bool :=
  let cs := line.data
  ((!cs.isEmpty && cs.all isAsciiDigit) ||
   line = "赞" ||
   (cs.length ≥ 2 && !cs.dropLast.isEmpty && cs.dropLast.all isAsciiDigit &&
     cs.getLast? = some '万')) &&
  cs.length < 10

/-- Step A of the card scanner: reverse scan for the last line matching the
time regex, returning its index and the line. -/
def findTimeLine : List String → Option (Nat × String)
  | [] => none
  | l :: rest =>
    match findTimeLine rest with
    | some (j, s) => some (j + 1, s)
    | none => if isTimeLine l then some (0, l) else none

/-- Step B of the card scanner: reverse scan for the last like-looking line,
skipping the index found in step A. -/
def findLikeLine : Option Nat → List String → Option String
  | _, [] => none
  | skip, l :: rest =>
    let skipRest : Option Nat :=
      match skip with
      | some (k + 1) => some k
      | _ => none
    match findLikeLine skipRest rest with
    | some s => some s
    | none =>
      if skip = some 0 then none
      else if isLikeLine l then some l else none

/-- The textual fields the positional card extractor produces from one
card's non-empty trimmed lines. -/
structure CardTextFields where
  publish_time : Option String
  like_text : Option String
  author : Option String
  title : Option String
  like_count : Option Int
deriving Repr, DecidableEq

/-- Embedding of the positional text-parsing block of `extract_cards`
(xiaohongshu_explore_scraper.py, lines 508-547), applied to the card's
non-empty trimmed lines: step A locates the last time-matching line
(`publish_time`), step B the last short like-looking line skipping it,
step C takes the line before the time line as `author` unless it matches
the relative-time regex, and step D joins the lines before the author with
spaces into `title`; with no time line, the second-to-last line is the
author fallback. -/
def extractCardTextFields (lines : List String) : CardTextFields :=
  let tl := findTimeLine lines
  let like_text := findLikeLine (tl.map (·.1)) lines
  let at_ : Option String × Option String :=
    match tl with
    | some (t, _) =>
      if t ≠ 0 then
        match lines[t - 1]? with
        | some pa =>
          if isRelTimeLine pa then (none, none)
          else
            (some pa,
             if t - 1 ≠ 0 then some (String.intercalate " " (lines.take (t - 1)))
             else none)
        | none => (none, none)
      else (none, none)
    | none =>
      if lines.length ≥ 2 then
        (lines[lines.length - 2]?,
         some (String.intercalate " " (lines.take (lines.length - 2))))
      else (none, none)
  { publish_time := tl.map (·.2)
    like_text := like_text
    author := at_.1
    title := at_.2
    like_count := parseLikeCount like_text }

/-- Hexadecimal digits of the regex class `[0-9a-fA-F]`. -/
def isHexDigitChar (c : Char) : Bool :=
  c.isDigit || ('a' ≤ c && c ≤ 'f') || ('A' ≤ c && c ≤ 'F')

/-- Position test for `/explore/[0-9a-fA-F]{10,}`. -/
def noteUrlAt (cs : List Char) : Bool :=
  "/explore/".data.isPrefixOf cs &&
  ((cs.drop 9).takeWhile isHexDigitChar).length ≥ 10

/-- Embedding of `_looks_like_note_url` (xiaohongshu_explore_scraper.py,
lines 211-217): rejects explore-listing links, accepts urls containing
`/explore/` followed by a hexadecimal id of at least 10 characters. -/
def looksLikeNoteUrl (url : Option String) : Bool :=
  match url with
  | none => false
  | some u =>
    if "https://www.xiaohongshu.com/explore?".data.isPrefixOf u.data then false
    else searchAny noteUrlAt u.data

example :
    looksLikeNoteUrl (some "https://www.xiaohongshu.com/explore/66a1b2c3d4e5f6a7b8c9")
      = true := by decide
example : looksLikeNoteUrl (some "https://www.xiaohongshu.com/explore?x=1") = false := by
  decide

/-- The record one feed card produces (`ExploreCard` dataclass,
xiaohongshu_explore_scraper.py, lines 55-66). -/
structure ExploreCard where
  keyword : Option String
  url : Option String
  title : Option String
  content : Option String
  author : Option String
  cover_url : Option String
  like_text : Option String
  like_count : Option Int
  publish_time : Option String
  raw_text : Option String
deriving Repr, DecidableEq

/-- The all-`none` card, a convenient base for concrete examples. -/
def blankCard : ExploreCard :=
  ⟨none, none, none, none, none, none, none, none, none, none⟩

/-- Embedding of `_strip_tracking_params` (xiaohongshu_explore_scraper.py,
lines 90-96): `none` for a missing or empty url, otherwise the part before
the first `?`. -/
def stripTrackingParams (u : Option String) : Option String :=
  match u with
  | none => none
  | some s => if s = "" then none else some (String.mk (s.data.takeWhile (· != '?')))

/-- A url is benign for idempotence when it does not begin with `?`. -/
def urlOk : Option String → Bool
  | none => true
  | some s => s.data.head? != some '?'

/-- The url-stripping the deduplicator applies to each record in place. -/
def stripCard (c : ExploreCard) : ExploreCard :=
  { c with url := stripTrackingParams c.url }

/-- The identity key the deduplicator reads after stripping
(`key = it.url or ""`). -/
def cardKey (c : ExploreCard) : String := c.url.getD ""

/-- The loop of `_dedupe_keep_order` with its set of seen keys. -/
def dedupeGo (seen : List String) : List ExploreCard → List ExploreCard
  | [] => []
  | it :: rest =>
    let it2 := stripCard it
    let key := cardKey it2
    if key ≠ "" ∧ key ∈ seen then dedupeGo seen rest
    else if key ≠ "" then it2 :: dedupeGo (key :: seen) rest
    else it2 :: dedupeGo seen rest

/-- Embedding of `_dedupe_keep_order` (xiaohongshu_explore_scraper.py,
lines 99-110): strip each record's url, keep the first occurrence of each
non-empty key in input order, always keep records with an empty key. -/
def dedupeKeepOrder (xs : List ExploreCard) : List ExploreCard :=
  dedupeGo [] xs

example :
    dedupeKeepOrder
        [{ blankCard with url := some "https://a/explore/1?x=1" },
         { blankCard with url := some "https://a/explore/1?y=2" },
         { blankCard with url := some "https://a/explore/2" }]
      = [{ blankCard with url := some "https://a/explore/1" },
         { blankCard with url := some "https://a/explore/2" }] := by decide

/-- The per-card facts a detail-page visit yields for the enrichment pass:
the content candidate, the publish-time candidate, and the parsed like
count when the like regex hit (all `none` when the visit failed). -/
structure DetailFacts where
  content : Option String
  publish_time : Option String
  like : Option Int
deriving Repr, DecidableEq

/-- Embedding of `_first_non_empty` (xiaohongshu_explore_scraper.py, lines
113-117): the first value that is non-null and non-blank, returned
stripped. -/
def firstNonEmpty : List (Option String) → Option String
  | [] => none
  | v :: rest =>
    match v with
    | some s => if pyStrip s = "" then firstNonEmpty rest else some (pyStrip s)
    | none => firstNonEmpty rest

/-- Embedding of the per-card update of `enrich_cards_from_detail_pages`
(xiaohongshu_explore_scraper.py, lines 139-199): cards without a url are
skipped; `content` and `publish_time` become the first non-blank of the old
value and the fetched one; `like_count` is replaced by the fetched count
only when it was null or zero (`card.like_count or lc`). -/
def enrichCard (card : ExploreCard) (e : DetailFacts) : ExploreCard :=
  match card.url with
  | none => card
  | some u =>
    if u = "" then card
    else
      { card with
        content := firstNonEmpty [card.content, e.content]
        publish_time := firstNonEmpty [card.publish_time, e.publish_time]
        like_count :=
          match e.like with
          | some lc =>
            match card.like_count with
            | some n => if n = 0 then some lc else some n
            | none => some lc
          | none => card.like_count }

example :
    (extractCardTextFields ["易烊千玺的日常", "易烊千玺", "3天前"]).author
      = some "易烊千玺" := by decide
example :
    (extractCardTextFields ["易烊千玺的日常", "易烊千玺", "3天前"]).title
      = some "易烊千玺的日常" := by decide
example :
    (extractCardTextFields ["易烊千玺的日常", "易烊千玺", "3天前"]).publish_time
      = some "3天前" := by decide
example :
    (extractCardTextFields ["x", "03-04", "05-06"]).author = some "03-04" := by decide
example :
    (extractCardTextFields ["a", "3分钟前", "昨天 10:20"]).author = none := by decide

/-- The regex class `\w` of Python's Unicode mode, restricted to this
data's repertoire: ASCII alphanumerics, underscore, and CJK ideographs. -/
def pyIsWordChar (c : Char) : Bool :=
  c.isAlphanum || c = '_' || (0x4E00 ≤ c.toNat && c.toNat ≤ 0x9FFF)

/-- The word boundary `\b` standing right after a literal whose last
character is `lastc`, with `rest` the remaining text. -/
def boundaryAfter (lastc : Char) (rest : List Char) : Bool :=
  pyIsWordChar lastc != (match rest.head? with
    | some c => pyIsWordChar c
    | none => false)

/-- Match the escaped identifier literal followed by `\b` at this
position. -/
def matchIdHere (idn : List Char) (cs : List Char) : Bool :=
  match idn.getLast? with
  | some lc => idn.isPrefixOf cs && boundaryAfter lc (cs.drop idn.length)
  | none => false

/-- Match the tail `\s*[:：]?\s*<id>\b` shared by the three identifier
patterns of `pick_user_by_xhs_id` (both branches of the optional colon). -/
def matchIdTail (idn : List Char) (cs : List Char) : Bool :=
  let r1 := cs.dropWhile pyIsSpace
  matchIdHere idn r1 ||
  (match r1 with
   | c :: r2 => (c = ':' || c = '：') && matchIdHere idn (r2.dropWhile pyIsSpace)
   | [] => false)

/-- Position test for the first identifier pattern
`小红书号\s*[:：]?\s*<id>\b`. -/
def idPat1At (idn : List Char) (cs : List Char) : Bool :=
  "小红书号".data.isPrefixOf cs && matchIdTail idn (cs.drop 4)

/-- Position test for the second identifier pattern
`小红书\s*id\s*[:：]?\s*<id>\b`. -/
def idPat2At (idn : List Char) (cs : List Char) : Bool :=
  "小红书".data.isPrefixOf cs &&
  (let r := (cs.drop 3).dropWhile pyIsSpace
   "id".data.isPrefixOf r && matchIdTail idn (r.drop 2))

/-- Scan for the third identifier pattern `\bid\s*[:：]?\s*<id>\b`,
tracking the previous character for the leading word boundary. -/
def idPat3Search (idn : List Char) : Option Char → List Char → Bool
  | _, [] => false
  | prev, c :: rest =>
    ((match prev with
      | some p => !pyIsWordChar p
      | none => true) &&
     "id".data.isPrefixOf (c :: rest) && matchIdTail idn ((c :: rest).drop 2)) ||
    idPat3Search idn (some c) rest

/-- `any(p.search(t) for p in id_patterns)` of `pick_user_by_xhs_id`
(xhs_top_user_recent_posts.py, lines 406-415): some identifier pattern
matches somewhere in the candidate's lowercased raw text. -/
def idTextMatch (t : String) (idn : String) : Bool :=
  searchAny (fun cs => idPat1At idn.data cs || idPat2At idn.data cs) t.data ||
  idPat3Search idn.data none t.data

/-- The candidate record of the user search (`UserHit` dataclass,
xhs_top_user_recent_posts.py, lines 49-57). -/
structure UserHit where
  query : String
  username : Option String
  profile_url : Option String
  fans_text : Option String
  fans_count : Option Int
  matched_by : Option String
  raw_text : Option String
deriving Repr, DecidableEq

/-- The fan-count sort key `x.fans_count or -1`: `-1` for a null (and for a
zero, by Python falsiness) fan count. -/
def fansKeyVal (h : UserHit) : Int :=
  match h.fans_count with
  | some n => if n = 0 then -1 else n
  | none => -1

/-- The username sort key `x.username or ""`. -/
def nameKeyVal (h : UserHit) : String := h.username.getD ""

/-- Python's lexicographic `<` on strings, by code point, as an executable
comparison on character lists. -/
def listCharLtB : List Char → List Char → Bool
  | [], [] => false
  | [], _ :: _ => true
  | _ :: _, [] => false
  | a :: as, b :: bs => decide (a < b) || (a = b && listCharLtB as bs)

/-- Python's lexicographic `<` on strings. -/
def strLtB (a b : String) : Bool := listCharLtB a.data b.data

/-- Strict comparison of the sort keys `(fans_count or -1, username or "")`:
`a` ranks strictly higher than `b`. -/
def hitKeyGT (a b : UserHit) : Bool :=
  decide (fansKeyVal b < fansKeyVal a) ||
  (fansKeyVal a == fansKeyVal b && strLtB (nameKeyVal b) (nameKeyVal a))

/-- One step of selecting the maximum-key candidate. -/
def pickTopFansStep (best x : UserHit) : UserHit :=
  if hitKeyGT x best then x else best

/-- Embedding of `pick_top_fans_user` (xhs_top_user_recent_posts.py, lines
383-388): `sorted(hits, key=..., reverse=True)[0]` — the first element
attaining the maximal `(fans_count or -1, username or "")` key. -/
def pickTopFansUser : List UserHit → Option UserHit
  | [] => none
  | h :: t => some (t.foldl pickTopFansStep h)

/-- Substring containment (Python's `in` on strings) on character lists. -/
def listContainsSub (needle : List Char) : List Char → Bool
  | [] => needle.isEmpty
  | c :: rest => needle.isPrefixOf (c :: rest) || listContainsSub needle rest

/-- Tier-1 test of the resolver: the candidate's stripped, lowercased raw
text is non-empty and some identifier pattern matches in it. -/
def tier1Hit (idn : String) (h : UserHit) : Bool :=
  let t := pyLower (pyStrip (h.raw_text.getD ""))
  t != "" && idTextMatch t idn

/-- Embedding of `pick_user_by_xhs_id` (xhs_top_user_recent_posts.py, lines
391-438): normalize the identifier; empty → `(none, "none")`; else try the
tiers in order — identifier in raw text (`"xhs_id"`), exact username
(`"exact"`), containment with top fans (`"contains"`), top fans fallback
(`"top_fans"`). -/
def pickUserByXhsId (hits : List UserHit) (xhsId : String) : Option UserHit × String :=
  let idn := pyLower (pyStrip xhsId)
  if idn = "" then (none, "none")
  else
    match hits.find? (tier1Hit idn) with
    | some h => (some { h with matched_by := some "xhs_id" }, "xhs_id")
    | none =>
      match hits.find? (fun h => pyLower (pyStrip (h.username.getD "")) == idn) with
      | some h => (some { h with matched_by := some "exact" }, "exact")
      | none =>
        let contained :=
          hits.filter (fun h => listContainsSub idn.data (pyLower (pyStrip (h.username.getD ""))).data)
        if !contained.isEmpty then
          match pickTopFansUser contained with
          | some top => (some { top with matched_by := some "contains" }, "contains")
          | none => (none, "contains")
        else
          match pickTopFansUser hits with
          | some top => (some { top with matched_by := some "top_fans" }, "top_fans")
          | none => (none, "none")

/-- The all-`none` candidate over a fixed query, a base for examples. -/
def blankHit : UserHit :=
  ⟨"易烊千玺", none, none, none, none, none, none⟩

/-- First candidate of the end-to-end resolver scenario. -/
def hitAbc : UserHit :=
  { blankHit with
    username := some "abc123"
    fans_count := some 500
    raw_text := some "小红书号：918365379" }

/-- Second candidate of the end-to-end resolver scenario. -/
def hitXyz : UserHit :=
  { blankHit with username := some "xyz", fans_count := some 9000 }

/-- Tie-break scenario candidates: equal fan counts, usernames differing. -/
def hitAnna : UserHit := { blankHit with username := some "anna", fans_count := some 100 }

/-- Tie-break scenario candidate with the lexicographically larger name. -/
def hitBob : UserHit := { blankHit with username := some "bob", fans_count := some 100 }

example :
    pickUserByXhsId [hitAbc, hitXyz] "918365379"
      = (some { hitAbc with matched_by := some "xhs_id" }, "xhs_id") := by decide
example :
    pickUserByXhsId [hitAnna, hitBob] "q"
      = (some { hitBob with matched_by := some "top_fans" }, "top_fans") := by decide
example : pickUserByXhsId [hitAbc, hitXyz] "   " = (none, "none") := by decide
example : pickTopFansUser [hitAnna, hitBob] = some hitBob := by decide

/-- A card as enriched in the C9 witness: non-blank content with
surrounding whitespace, a non-blank publish time, a nonzero like count. -/
def enrichWitCard : ExploreCard :=
  { blankCard with
    url := some "https://a/explore/1"
    content := some " 正文 "
    publish_time := some "昨天 10:20"
    like_count := some 7 }

/-- The detail-page facts used by the C9 witness. -/
def enrichWitFacts : DetailFacts :=
  { content := some "fetched", publish_time := some "2024-01-01", like := some 9 }

lemma pyIsSpace_not_digit {c : Char} (h : pyIsSpace c = true) : isAsciiDigit c = false := by
  simp only [pyIsSpace, Bool.or_eq_true, decide_eq_true_eq] at h
  rcases h with ((((((h | h) | h) | h) | h) | h) | h) | h <;> subst h <;> decide

lemma any_digit_dropWhile_space :
    ∀ cs : List Char, ((cs.dropWhile pyIsSpace).any isAsciiDigit) = cs.any isAsciiDigit := by
  intro cs
  induction cs with
  | nil => rfl
  | cons c rest ih =>
    cases hpc : pyIsSpace c with
    | true =>
      rw [List.dropWhile_cons]
      simp [hpc, ih, pyIsSpace_not_digit hpc]
    | false =>
      rw [List.dropWhile_cons]
      simp [hpc]

lemma pyStripList_any_digit (cs : List Char) :
    (pyStripList cs).any isAsciiDigit = cs.any isAsciiDigit := by
  unfold pyStripList
  rw [List.any_reverse, any_digit_dropWhile_space, List.any_reverse,
    any_digit_dropWhile_space]

lemma removeLabels_any_digit (cs : List Char) :
    (removeLabels cs).any isAsciiDigit = cs.any isAsciiDigit := by
  induction cs using removeLabels.induct <;>
    simp_all [removeLabels, List.any_cons,
      (by decide : isAsciiDigit '粉' = false),
      (by decide : isAsciiDigit '丝' = false),
      (by decide : isAsciiDigit '关' = false),
      (by decide : isAsciiDigit '注' = false),
      (by decide : isAsciiDigit '获' = false),
      (by decide : isAsciiDigit '赞' = false),
      (by decide : isAsciiDigit '人' = false),
      (by decide : isAsciiDigit '+' = false)]

lemma findNumToken_none_iff (cs : List Char) :
    findNumToken cs = none ↔ cs.any isAsciiDigit = false := by
  induction cs with
  | nil => simp [findNumToken]
  | cons c rest ih =>
    cases hc : isAsciiDigit c with
    | true => simp [findNumToken, hc]
    | false => simp [findNumToken, hc, ih]

lemma pyStrip_data (s : String) : (pyStrip s).data = pyStripList s.data := rfl

lemma pyStrip_empty_no_digit {s : String} (h : pyStrip s = "") :
    s.data.any isAsciiDigit = false := by
  have hd : pyStripList s.data = [] := by
    have := congrArg String.data h
    simpa [pyStrip_data] using this
  have := pyStripList_any_digit s.data
  rw [hd] at this
  simpa using this.symm

lemma dedupeGo_cons_drop {seen : List String} {it : ExploreCard} {rest : List ExploreCard}
    (h1 : cardKey (stripCard it) ≠ "") (h2 : cardKey (stripCard it) ∈ seen) :
    dedupeGo seen (it :: rest) = dedupeGo seen rest := by
  unfold dedupeGo
  rw [if_pos ⟨h1, h2⟩]
  cases rest <;> rfl

lemma dedupeGo_cons_new {seen : List String} {it : ExploreCard} {rest : List ExploreCard}
    (h1 : cardKey (stripCard it) ≠ "") (h2 : cardKey (stripCard it) ∉ seen) :
    dedupeGo seen (it :: rest)
      = stripCard it :: dedupeGo (cardKey (stripCard it) :: seen) rest := by
  unfold dedupeGo
  rw [if_neg (by exact fun hc => h2 hc.2), if_pos h1]
  cases rest <;> rfl

lemma dedupeGo_cons_empty {seen : List String} {it : ExploreCard} {rest : List ExploreCard}
    (h1 : cardKey (stripCard it) = "") :
    dedupeGo seen (it :: rest) = stripCard it :: dedupeGo seen rest := by
  unfold dedupeGo
  rw [if_neg (by exact fun hc => hc.1 h1), if_neg (by exact fun hc => hc h1)]
  cases rest <;> rfl

lemma dedupeGo_sublist (seen : List String) (xs : List ExploreCard) :
    (dedupeGo seen xs).Sublist (xs.map stripCard) := by
  induction xs generalizing seen with
  | nil => simp [dedupeGo]
  | cons it rest ih =>
    rw [List.map_cons]
    by_cases hk : cardKey (stripCard it) = ""
    · rw [dedupeGo_cons_empty hk]
      exact (ih seen).cons₂ _
    · by_cases hm : cardKey (stripCard it) ∈ seen
      · rw [dedupeGo_cons_drop hk hm]
        exact (ih seen).cons _
      · rw [dedupeGo_cons_new hk hm]
        exact (ih _).cons₂ _

lemma dedupeGo_filter_empty (seen : List String) (xs : List ExploreCard) :
    (dedupeGo seen xs).filter (fun c => cardKey c == "")
      = (xs.map stripCard).filter (fun c => cardKey c == "") := by
  induction xs generalizing seen with
  | nil => rfl
  | cons it rest ih =>
    rw [List.map_cons, List.filter_cons]
    by_cases hk : cardKey (stripCard it) = ""
    · rw [dedupeGo_cons_empty hk, List.filter_cons]
      simp only [hk, beq_self_eq_true, if_pos]
      rw [ih seen]
    · have hne : (cardKey (stripCard it) == "") = false := beq_eq_false_iff_ne.mpr hk
      rw [hne]
      simp only [Bool.false_eq_true, if_neg, ite_false]
      by_cases hm : cardKey (stripCard it) ∈ seen
      · rw [dedupeGo_cons_drop hk hm, ih seen]
      · rw [dedupeGo_cons_new hk hm, List.filter_cons, hne]
        simp only [Bool.false_eq_true, if_neg, ite_false]
        rw [ih _]

lemma dedupeGo_filter_seen (xs : List ExploreCard) :
    ∀ (seen : List String) (k : String), k ≠ "" → k ∈ seen →
    (dedupeGo seen xs).filter (fun c => cardKey c == k) = [] := by
  induction xs with
  | nil => intro seen k _ _; rfl
  | cons it rest ih =>
    intro seen k hk hmem
    by_cases h0 : cardKey (stripCard it) = ""
    · rw [dedupeGo_cons_empty h0, List.filter_cons]
      have : (cardKey (stripCard it) == k) = false :=
        beq_eq_false_iff_ne.mpr (by rw [h0]; exact fun he => hk he.symm)
      rw [this]
      simp only [Bool.false_eq_true, if_neg, ite_false]
      exact ih seen k hk hmem
    · by_cases hm : cardKey (stripCard it) ∈ seen
      · rw [dedupeGo_cons_drop h0 hm]
        exact ih seen k hk hmem
      · rw [dedupeGo_cons_new h0 hm, List.filter_cons]
        have hne : cardKey (stripCard it) ≠ k := fun he => hm (he ▸ hmem)
        rw [beq_eq_false_iff_ne.mpr hne]
        simp only [Bool.false_eq_true, if_neg, ite_false]
        exact ih _ k hk (List.mem_cons_of_mem _ hmem)

lemma dedupeGo_filter_new (xs : List ExploreCard) :
    ∀ (seen : List String) (k : String), k ≠ "" → k ∉ seen →
    (dedupeGo seen xs).filter (fun c => cardKey c == k)
      = ((xs.map stripCard).filter (fun c => cardKey c == k)).take 1 := by
  induction xs with
  | nil => intro seen k _ _; rfl
  | cons it rest ih =>
    intro seen k hk hnm
    rw [List.map_cons, List.filter_cons]
    by_cases h0 : cardKey (stripCard it) = ""
    · have hne : (cardKey (stripCard it) == k) = false :=
        beq_eq_false_iff_ne.mpr (by rw [h0]; exact fun he => hk he.symm)
      rw [dedupeGo_cons_empty h0, List.filter_cons, hne]
      simp only [Bool.false_eq_true, if_neg, ite_false]
      exact ih seen k hk hnm
    · by_cases hm : cardKey (stripCard it) ∈ seen
      · have hne : (cardKey (stripCard it) == k) = false :=
          beq_eq_false_iff_ne.mpr (fun he => hnm (he ▸ hm))
        rw [dedupeGo_cons_drop h0 hm, hne]
        simp only [Bool.false_eq_true, if_neg, ite_false]
        exact ih seen k hk hnm
      · rw [dedupeGo_cons_new h0 hm, List.filter_cons]
        by_cases hek : cardKey (stripCard it) = k
        · rw [beq_iff_eq.mpr hek]
          simp only [if_pos, ite_true]
          rw [dedupeGo_filter_seen rest _ k hk (hek ▸ List.mem_cons_self _ _)]
          simp
        · rw [beq_eq_false_iff_ne.mpr hek]
          simp only [Bool.false_eq_true, if_neg, ite_false]
          exact ih _ k hk (by
            intro hc
            rcases List.mem_cons.mp hc with he | hs
            · exact hek he.symm
            · exact hnm hs)

lemma dedupeGo_key_not_seen (xs : List ExploreCard) :
    ∀ (seen : List String), ∀ c ∈ dedupeGo seen xs, cardKey c ≠ "" → cardKey c ∉ seen := by
  induction xs with
  | nil => intro seen c hc; simp [dedupeGo] at hc
  | cons it rest ih =>
    intro seen c hc hke
    by_cases h0 : cardKey (stripCard it) = ""
    · rw [dedupeGo_cons_empty h0] at hc
      rcases List.mem_cons.mp hc with he | hs
      · subst he; exact absurd h0 hke
      · exact ih seen c hs hke
    · by_cases hm : cardKey (stripCard it) ∈ seen
      · rw [dedupeGo_cons_drop h0 hm] at hc
        exact ih seen c hc hke
      · rw [dedupeGo_cons_new h0 hm] at hc
        rcases List.mem_cons.mp hc with he | hs
        · subst he; exact hm
        · intro hcs
          exact ih _ c hs hke (List.mem_cons_of_mem _ hcs)

lemma dedupeGo_pairwise (xs : List ExploreCard) :
    ∀ (seen : List String),
    (dedupeGo seen xs).Pairwise (fun a b => cardKey a = cardKey b → cardKey a = "") := by
  induction xs with
  | nil => intro seen; simp [dedupeGo]
  | cons it rest ih =>
    intro seen
    by_cases h0 : cardKey (stripCard it) = ""
    · rw [dedupeGo_cons_empty h0]
      exact List.Pairwise.cons (fun b _ _ => h0) (ih seen)
    · by_cases hm : cardKey (stripCard it) ∈ seen
      · rw [dedupeGo_cons_drop h0 hm]
        exact ih seen
      · rw [dedupeGo_cons_new h0 hm]
        refine List.Pairwise.cons ?_ (ih _)
        intro b hb he
        by_cases hbe : cardKey b = ""
        · exact he.trans hbe
        · exact absurd (List.mem_cons_self _ _)
            (he ▸ dedupeGo_key_not_seen rest _ b hb hbe)

/-- C7: the deduplicator strips each record's url at the first `?`, keeps
exactly the first occurrence of each non-empty stripped key in input order,
keeps every record with an empty or missing key, preserves the relative
input order of kept records, and leaves no two records sharing a non-empty
key. -/
theorem claim_C7_thm (xs : List ExploreCard) :
    (dedupeKeepOrder xs).Sublist (xs.map stripCard) ∧
    (dedupeKeepOrder xs).filter (fun c => cardKey c == "")
      = (xs.map stripCard).filter (fun c => cardKey c == "") ∧
    (∀ k : String, k ≠ "" →
      (dedupeKeepOrder xs).filter (fun c => cardKey c == k)
        = ((xs.map stripCard).filter (fun c => cardKey c == k)).take 1) ∧
    (dedupeKeepOrder xs).Pairwise (fun a b => cardKey a = cardKey b → cardKey a = "") :=
  ⟨dedupeGo_sublist [] xs, dedupeGo_filter_empty [] xs,
   fun k hk => dedupeGo_filter_new xs [] k hk (by simp),
   dedupeGo_pairwise xs []⟩

/-- Witness for C7: for a concrete input with a repeated key (under two
different tracking suffixes) and a key-less record, the records with the
repeated key collapse to the first occurrence. -/
theorem claim_C7_wit :
    (dedupeKeepOrder
        [{ blankCard with url := some "https://a/explore/1?x=1" },
         { blankCard with url := some "https://a/explore/1?y=2" },
         blankCard]).filter (fun c => cardKey c == "https://a/explore/1")
      = (([{ blankCard with url := some "https://a/explore/1?x=1" },
           { blankCard with url := some "https://a/explore/1?y=2" },
           blankCard].map stripCard).filter
            (fun c => cardKey c == "https://a/explore/1")).take 1 :=
  (claim_C7_thm _).2.2.1 "https://a/explore/1" (by decide)

/-- The stripped url is stable under a second strip: it has no `?` left. -/
lemma takeWhile_self_of_all {p : Char → Bool} {l : List Char}
    (h : ∀ c ∈ l, p c = true) : l.takeWhile p = l := by
  induction l with
  | nil => rfl
  | cons c rest ih =>
    rw [List.takeWhile_cons, if_pos (h c (List.mem_cons_self c rest))]
    rw [ih (fun d hd => h d (List.mem_cons_of_mem c hd))]

lemma takeWhile_twice (p : Char → Bool) (l : List Char) :
    (l.takeWhile p).takeWhile p = l.takeWhile p :=
  takeWhile_self_of_all (fun _ hc => List.mem_takeWhile_imp hc)

lemma stripTracking_fix {u : Option String} (h : urlOk u = true) :
    stripTrackingParams (stripTrackingParams u) = stripTrackingParams u := by
  match u with
  | none => rfl
  | some s =>
    by_cases hs : s = ""
    · simp [stripTrackingParams, hs]
    · rw [stripTrackingParams, if_neg hs]
      have hne : String.mk (s.data.takeWhile (· != '?')) ≠ "" := by
        intro hcon
        have hd : s.data.takeWhile (· != '?') = [] := by
          have := congrArg String.data hcon
          simpa using this
        match hsd : s.data with
        | [] => exact hs (by cases s; simp_all)
        | c :: cs =>
          rw [hsd, List.takeWhile_cons] at hd
          have hcq : (c != '?') = false := by
            by_contra hb
            rw [if_pos (by simpa using Bool.ne_false_iff.mp hb)] at hd
            simp at hd
          have : c = '?' := by simpa using hcq
          rw [urlOk, hsd, this] at h
          simp at h
      rw [stripTrackingParams, if_neg hne]
      congr 1
      congr 1
      exact takeWhile_twice _ _

lemma stripCard_url (c : ExploreCard) :
    (stripCard c).url = stripTrackingParams c.url := rfl

lemma stripCard_fix {c : ExploreCard} (h : urlOk c.url = true) :
    stripCard (stripCard c) = stripCard c := by
  unfold stripCard
  simp [stripTracking_fix h]

lemma dedupeGo_id (ys : List ExploreCard) :
    ∀ (seen : List String),
    (∀ c ∈ ys, stripCard c = c) →
    ys.Pairwise (fun a b => cardKey a = cardKey b → cardKey a = "") →
    (∀ c ∈ ys, cardKey c ≠ "" → cardKey c ∉ seen) →
    dedupeGo seen ys = ys := by
  induction ys with
  | nil => intro seen _ _ _; rfl
  | cons c rest ih =>
    intro seen hfix hpw hseen
    have hc : stripCard c = c := hfix c (List.mem_cons_self c rest)
    have hpw' := List.pairwise_cons.mp hpw
    by_cases h0 : cardKey (stripCard c) = ""
    · rw [dedupeGo_cons_empty h0, hc]
      congr 1
      exact ih seen (fun d hd => hfix d (List.mem_cons_of_mem c hd)) hpw'.2
        (fun d hd => hseen d (List.mem_cons_of_mem c hd))
    · have hnot : cardKey (stripCard c) ∉ seen := by
        rw [hc] at h0 ⊢
        exact hseen c (List.mem_cons_self c rest) h0
      rw [dedupeGo_cons_new h0 hnot, hc]
      congr 1
      refine ih _ (fun d hd => hfix d (List.mem_cons_of_mem c hd)) hpw'.2 ?_
      intro d hd hdk hmem
      rcases List.mem_cons.mp hmem with he | hs
      · rw [hc] at h0
        exact h0 (hpw'.1 d hd he.symm)
      · exact hseen d (List.mem_cons_of_mem c hd) hdk hs

/-- C8 as stated fails: a record whose url starts with `?` strips to the
empty string on the first pass and to null on the second, so deduplicating
twice differs from deduplicating once. -/
theorem claim_C8_cex :
    dedupeKeepOrder (dedupeKeepOrder [{ blankCard with url := some "?a" }])
      ≠ dedupeKeepOrder [{ blankCard with url := some "?a" }] := by decide

/-- C8 amended: deduplication is idempotent on every input sequence in
which no record's url begins with the character `?` (the only urls whose
stripped key collapses further on a second pass). -/
theorem claim_C8_thm (xs : List ExploreCard)
    (h : ∀ c ∈ xs, urlOk c.url = true) :
    dedupeKeepOrder (dedupeKeepOrder xs) = dedupeKeepOrder xs := by
  apply dedupeGo_id
  · intro c hc
    have hsub := (dedupeGo_sublist [] xs).subset hc
    rcases List.mem_map.mp hsub with ⟨c0, hc0, he⟩
    rw [← he]
    exact stripCard_fix (h c0 hc0)
  · exact dedupeGo_pairwise xs []
  · intro c _ _
    exact List.not_mem_nil _

/-- Witness for C8 at a concrete input with tracking suffixes. -/
theorem claim_C8_wit :
    dedupeKeepOrder
        (dedupeKeepOrder
          [{ blankCard with url := some "https://a/explore/1?x=1" },
           { blankCard with url := some "https://a/explore/2" }])
      = dedupeKeepOrder
          [{ blankCard with url := some "https://a/explore/1?x=1" },
           { blankCard with url := some "https://a/explore/2" }] :=
  claim_C8_thm _ (by decide)

lemma listCharLtB_irrefl (l : List Char) : listCharLtB l l = false := by
  induction l with
  | nil => rfl
  | cons c rest ih => simp [listCharLtB, ih, lt_irrefl]

lemma listCharLtB_trans :
    ∀ {a b c : List Char}, listCharLtB a b = true → listCharLtB b c = true →
      listCharLtB a c = true := by
  intro a
  induction a with
  | nil =>
    intro b c h1 h2
    cases b with
    | nil => simp [listCharLtB] at h1
    | cons b0 bs =>
      cases c with
      | nil => simp [listCharLtB] at h2
      | cons c0 cs => simp [listCharLtB]
  | cons a0 as ih =>
    intro b c h1 h2
    cases b with
    | nil => simp [listCharLtB] at h1
    | cons b0 bs =>
      cases c with
      | nil => simp [listCharLtB] at h2
      | cons c0 cs =>
        simp only [listCharLtB, Bool.or_eq_true, Bool.and_eq_true,
          decide_eq_true_eq] at h1 h2 ⊢
        rcases h1 with h1 | ⟨h1e, h1r⟩
        · rcases h2 with h2 | ⟨h2e, h2r⟩
          · exact Or.inl (lt_trans h1 h2)
          · exact Or.inl (h2e ▸ h1)
        · rcases h2 with h2 | ⟨h2e, h2r⟩
          · exact Or.inl (h1e ▸ h2)
          · exact Or.inr ⟨h1e.trans h2e, ih h1r h2r⟩

lemma hitKeyGT_irrefl (a : UserHit) : hitKeyGT a a = false := by
  simp [hitKeyGT, strLtB, listCharLtB_irrefl, lt_irrefl]

lemma hitKeyGT_trans {a b c : UserHit} (h1 : hitKeyGT a b = true)
    (h2 : hitKeyGT b c = true) : hitKeyGT a c = true := by
  simp only [hitKeyGT, Bool.or_eq_true, Bool.and_eq_true, decide_eq_true_eq,
    beq_iff_eq, strLtB] at h1 h2 ⊢
  rcases h1 with h1 | ⟨h1e, h1r⟩
  · rcases h2 with h2 | ⟨h2e, h2r⟩
    · exact Or.inl (lt_trans h2 h1)
    · exact Or.inl (h2e ▸ h1)
  · rcases h2 with h2 | ⟨h2e, h2r⟩
    · exact Or.inl (h1e ▸ h2)
    · exact Or.inr ⟨h1e.trans h2e, listCharLtB_trans h2r h1r⟩

lemma pickTopFansStep_no_gt {x best y : UserHit} (h : hitKeyGT x best = false) :
    hitKeyGT x (pickTopFansStep best y) = false := by
  unfold pickTopFansStep
  by_cases hy : hitKeyGT y best = true
  · rw [if_pos hy]
    cases hxy : hitKeyGT x y with
    | false => rfl
    | true => exact absurd (hitKeyGT_trans hxy hy) (by simp [h])
  · rw [if_neg hy]
    exact h

lemma foldl_pickTop_spec (t : List UserHit) :
    ∀ acc : UserHit,
      (t.foldl pickTopFansStep acc = acc ∨ t.foldl pickTopFansStep acc ∈ t) ∧
      (∀ x, hitKeyGT x acc = false → hitKeyGT x (t.foldl pickTopFansStep acc) = false) ∧
      (∀ x ∈ t, hitKeyGT x (t.foldl pickTopFansStep acc) = false) := by
  induction t with
  | nil =>
    intro acc
    exact ⟨Or.inl rfl, fun x h => h, by simp⟩
  | cons y t ih =>
    intro acc
    obtain ⟨m1, m2, m3⟩ := ih (pickTopFansStep acc y)
    have estep : (y :: t).foldl pickTopFansStep acc
        = t.foldl pickTopFansStep (pickTopFansStep acc y) := rfl
    refine ⟨?_, ?_, ?_⟩
    · rw [estep]
      rcases m1 with hm | hm
      · rw [hm]
        unfold pickTopFansStep
        by_cases hy : hitKeyGT y acc = true
        · rw [if_pos hy]; exact Or.inr (List.mem_cons_self y t)
        · rw [if_neg hy]; exact Or.inl rfl
      · exact Or.inr (List.mem_cons_of_mem y hm)
    · intro x hx
      rw [estep]
      exact m2 x (pickTopFansStep_no_gt hx)
    · intro x hx
      rw [estep]
      rcases List.mem_cons.mp hx with he | hs
      · subst he
        apply m2
        unfold pickTopFansStep
        by_cases hy : hitKeyGT x acc = true
        · rw [if_pos hy]; exact hitKeyGT_irrefl x
        · rw [if_neg hy]; exact Bool.not_eq_true _ ▸ (by simpa using hy)
      · exact m3 x hs

lemma hitKeyGT_false_unfold {a b : UserHit} (h : hitKeyGT a b = false) :
    fansKeyVal a < fansKeyVal b ∨
      (fansKeyVal a = fansKeyVal b ∧ strLtB (nameKeyVal b) (nameKeyVal a) = false) := by
  simp only [hitKeyGT, Bool.or_eq_false_iff, Bool.and_eq_false_iff,
    decide_eq_false_iff_not, beq_eq_false_iff_ne, ne_eq] at h
  obtain ⟨h1, h2⟩ := h
  rcases lt_or_eq_of_le (le_of_not_lt h1) with hlt | heq
  · exact Or.inl hlt
  · refine Or.inr ⟨heq, ?_⟩
    rcases h2 with h2 | h2
    · exact absurd heq h2
    · exact h2

/-- C2 as stated fails: with exactly equal fan counts the resolver picks
the candidate with the lexicographically larger username — for usernames
"anna" and "bob" at the top-fans tier it picks "bob", not "anna". -/
theorem claim_C2_cex :
    fansKeyVal hitAnna = fansKeyVal hitBob ∧
    (pickUserByXhsId [hitAnna, hitBob] "q").1.map UserHit.username
      = some (some "bob") ∧
    ¬ (pickUserByXhsId [hitAnna, hitBob] "q").1.map UserHit.username
      = some (some "anna") := by decide

/-- C2 amended: among candidates compared by the fan-count key (null fans
— and, by Python falsiness, zero fans — treated as −1), the selected
candidate is maximal: every other candidate has a strictly smaller key, or
an equal key and a username not lexicographically greater — on an exact
fan tie the lexicographically larger username wins (so for "anna"/"bob"
with equal fans the resolver deterministically picks "bob"). -/
theorem claim_C2_thm (hits : List UserHit) (h0 : UserHit)
    (hpick : pickTopFansUser hits = some h0) :
    h0 ∈ hits ∧
    ∀ h1 ∈ hits,
      fansKeyVal h1 < fansKeyVal h0 ∨
        (fansKeyVal h1 = fansKeyVal h0 ∧
          strLtB (nameKeyVal h0) (nameKeyVal h1) = false) := by
  cases hits with
  | nil => simp [pickTopFansUser] at hpick
  | cons h t =>
    have he : t.foldl pickTopFansStep h = h0 := by
      simpa [pickTopFansUser] using hpick
    obtain ⟨m1, m2, m3⟩ := foldl_pickTop_spec t h
    constructor
    · rw [← he]
      rcases m1 with hm | hm
      · rw [hm]; exact List.mem_cons_self h t
      · exact List.mem_cons_of_mem h hm
    · intro h1 hh1
      rcases List.mem_cons.mp hh1 with he1 | hs
      · subst he1
        exact hitKeyGT_false_unfold (he ▸ m2 h1 (hitKeyGT_irrefl h1))
      · exact hitKeyGT_false_unfold (he ▸ m3 h1 hs)

/-- Witness for C2 at the equal-fans "anna"/"bob" pair: the picked
candidate is "bob" and it is maximal over both candidates. -/
theorem claim_C2_wit :
    hitBob ∈ [hitAnna, hitBob] ∧
    ∀ h1 ∈ [hitAnna, hitBob],
      fansKeyVal h1 < fansKeyVal hitBob ∨
        (fansKeyVal h1 = fansKeyVal hitBob ∧
          strLtB (nameKeyVal hitBob) (nameKeyVal h1) = false) :=
  claim_C2_thm [hitAnna, hitBob] hitBob (by decide)

/-- C1 as stated fails only in the tier label: in the end-to-end scenario
the resolver does select the first, lower-fans candidate through the
identifier-in-raw-text tier, but it reports the label "xhs_id", not
"id_exact". -/
theorem claim_C1_cex :
    (pickUserByXhsId [hitAbc, hitXyz] "918365379").1
      = some { hitAbc with matched_by := some "xhs_id" } ∧
    (pickUserByXhsId [hitAbc, hitXyz] "918365379").2 = "xhs_id" ∧
    (pickUserByXhsId [hitAbc, hitXyz] "918365379").2 ≠ "id_exact" := by decide

/-- C1 amended: the identifier-in-raw-text tier reports the label
"xhs_id" (the code's name for the spec's `id_exact`); with that label the
claim holds — whenever the normalized identifier is non-empty and some
candidate's raw text passes the identifier-pattern test, the resolver
returns the first such candidate with tier "xhs_id", taking strict
precedence over the name-equality, name-containment, and top-fans tiers
(in the concrete scenario, the 500-fans candidate with raw text
"小红书号：918365379" beats the 9000-fans candidate). -/
theorem claim_C1_thm (hits : List UserHit) (xhsId : String) (h : UserHit)
    (hne : pyLower (pyStrip xhsId) ≠ "")
    (hfind : hits.find? (tier1Hit (pyLower (pyStrip xhsId))) = some h) :
    pickUserByXhsId hits xhsId
      = (some { h with matched_by := some "xhs_id" }, "xhs_id") := by
  simp only [pickUserByXhsId]
  rw [if_neg hne, hfind]

/-- Witness for C1 at the end-to-end scenario. -/
theorem claim_C1_wit :
    pickUserByXhsId [hitAbc, hitXyz] "918365379"
      = (some { hitAbc with matched_by := some "xhs_id" }, "xhs_id") :=
  claim_C1_thm [hitAbc, hitXyz] "918365379" hitAbc (by decide) (by decide)

/-- C10: an identifier that is empty or all whitespace makes the resolver
return `(none, "none")` immediately, whatever the candidate list — it never
falls through to the top-fans tier. -/
theorem claim_C10_thm (hits : List UserHit) (xhsId : String)
    (h : pyStrip xhsId = "") :
    pickUserByXhsId hits xhsId = (none, "none") := by
  simp only [pickUserByXhsId, h]
  rfl

/-- Witness for C10: whitespace identifier against a non-empty candidate
list. -/
theorem claim_C10_wit : pickUserByXhsId [hitAbc, hitXyz] "  " = (none, "none") :=
  claim_C10_thm [hitAbc, hitXyz] "  " (by decide)

/-- C4 as stated fails: the `MM-DD` pattern is tried before `YYYY-MM-DD`
and is unanchored, so on "2024-03-01" the classifier returns the inner
substring "24-03", not "2024-03-01". -/
theorem claim_C4_cex :
    parsePublishTimeFromText "2024-03-01" = some "24-03" ∧
    (some "24-03" : Option String) ≠ some "2024-03-01" := by decide

/-- C4 amended: the patterns are tried in the order minutes-ago,
hours-ago, `昨天 HH:MM`, `前天 HH:MM`, `MM-DD`, `YYYY-MM-DD`, days-ago
(days-ago last, not third), the first matching pattern yielding its
matched substring: "昨天 10:20" and "3天前" classify to themselves,
"no date here" to null, and "2024-03-01" to "24-03"; a text holding both a
days-ago token and a later-tried-shape token classifies to the other
shape. -/
theorem claim_C4_thm :
    parsePublishTimeFromText "昨天 10:20" = some "昨天 10:20" ∧
    parsePublishTimeFromText "2024-03-01" = some "24-03" ∧
    parsePublishTimeFromText "no date here" = none ∧
    parsePublishTimeFromText "3天前" = some "3天前" ∧
    parsePublishTimeFromText "1小时前 2分钟前" = some "2分钟前" ∧
    parsePublishTimeFromText "5天前 昨天 10:20" = some "昨天 10:20" ∧
    parsePublishTimeFromText "3天前 01-02" = some "01-02" := by decide

/-- C5: on the line list ["易烊千玺的日常","易烊千玺","3天前"] (with a
valid note link for the card), the positional extractor finds the time
line by its reverse scan, takes the preceding line as the author, and joins
the earlier lines into the title. -/
theorem claim_C5_thm :
    looksLikeNoteUrl
        (some "https://www.xiaohongshu.com/explore/66a1b2c3d4e5f6a7b8c9") = true ∧
    (extractCardTextFields ["易烊千玺的日常", "易烊千玺", "3天前"]).author
      = some "易烊千玺" ∧
    (extractCardTextFields ["易烊千玺的日常", "易烊千玺", "3天前"]).title
      = some "易烊千玺的日常" ∧
    (extractCardTextFields ["易烊千玺的日常", "易烊千玺", "3天前"]).publish_time
      = some "3天前" := by decide

/-- C6 as stated fails: the author-rejection regex covers only the
relative-time shapes, so a date-shaped preceding line such as "03-04" —
a §4.3 time token, as `MM-DD` — is accepted as the author instead of
leaving it null. -/
theorem claim_C6_cex :
    isTimeLine "03-04" = true ∧
    parsePublishTimeFromText "03-04" = some "03-04" ∧
    (extractCardTextFields ["x", "03-04", "05-06"]).publish_time = some "05-06" ∧
    (extractCardTextFields ["x", "03-04", "05-06"]).author = some "03-04" ∧
    (extractCardTextFields ["x", "03-04", "05-06"]).author ≠ none := by decide

/-- C6 amended: when the reverse scan finds the time line at index `t > 0`,
the preceding line is rejected as author exactly when it matches the
relative-time-only regex (minutes/hours/days-ago, 昨天, 前天); the `MM-DD`
and `YYYY-MM-DD` date shapes are not rejected, so a date-shaped preceding
line becomes the author. -/
theorem claim_C6_thm (lines : List String) (i : Nat) (tl pa : String)
    (hfind : findTimeLine lines = some (i, tl))
    (hi : i ≠ 0)
    (hpa : lines[i - 1]? = some pa) :
    (isRelTimeLine pa = true → (extractCardTextFields lines).author = none) ∧
    (isRelTimeLine pa = false → (extractCardTextFields lines).author = some pa) := by
  constructor <;> intro hrel <;>
    simp [extractCardTextFields, hfind, hpa, hi, hrel]

/-- Witness for C6: a relative-time preceding line is rejected; an
ordinary preceding line is accepted. -/
theorem claim_C6_wit :
    (extractCardTextFields ["a", "3分钟前", "昨天 10:20"]).author = none ∧
    (extractCardTextFields ["x", "标题", "05-06"]).author = some "标题" :=
  ⟨(claim_C6_thm ["a", "3分钟前", "昨天 10:20"] 2 "昨天 10:20" "3分钟前"
      (by decide) (by decide) (by decide)).1 (by decide),
   (claim_C6_thm ["x", "标题", "05-06"] 2 "05-06" "标题"
      (by decide) (by decide) (by decide)).2 (by decide)⟩

/-- C9 as stated fails: a non-null `like_count` of 0 is falsy in Python,
so `card.like_count or lc` overwrites it with the fetched count. -/
theorem claim_C9_cex :
    (enrichCard { blankCard with url := some "https://a/explore/1", like_count := some 0 }
        { content := none, publish_time := none, like := some 5 }).like_count
      = some 5 ∧
    (some (5 : Int) : Option Int) ≠ some 0 := by decide

lemma enrichCard_skip {card : ExploreCard} (e : DetailFacts)
    (h : card.url = none ∨ card.url = some "") : enrichCard card e = card := by
  rcases h with h | h <;> simp [enrichCard, h]

lemma enrichCard_visit {card : ExploreCard} (e : DetailFacts) {u : String}
    (h : card.url = some u) (h0 : u ≠ "") :
    enrichCard card e =
      { card with
        content := firstNonEmpty [card.content, e.content]
        publish_time := firstNonEmpty [card.publish_time, e.publish_time]
        like_count :=
          match e.like with
          | some lc =>
            match card.like_count with
            | some n => if n = 0 then some lc else some n
            | none => some lc
          | none => card.like_count } := by
  simp only [enrichCard, h]
  rw [if_neg h0]

lemma firstNonEmpty_keep {s : String} (rest : List (Option String))
    (h : pyStrip s ≠ "") : firstNonEmpty (some s :: rest) = some (pyStrip s) := by
  simp only [firstNonEmpty]
  rw [if_neg h]

/-- C9 amended: the enrichment update never touches `url`, `title`,
`author`, `cover_url`, `like_text`, `raw_text`, or `keyword`; a card whose
url is null or empty is returned unchanged; a non-null, non-blank
`content` or `publish_time` survives the pass up to whitespace stripping
(it is never replaced by fetched data); and a non-null, nonzero
`like_count` is unchanged (null or zero may be overwritten by the fetched
count). -/
theorem claim_C9_thm (card : ExploreCard) (e : DetailFacts) :
    (enrichCard card e).url = card.url ∧
    (enrichCard card e).title = card.title ∧
    (enrichCard card e).author = card.author ∧
    (enrichCard card e).cover_url = card.cover_url ∧
    (enrichCard card e).like_text = card.like_text ∧
    (enrichCard card e).raw_text = card.raw_text ∧
    (enrichCard card e).keyword = card.keyword ∧
    ((card.url = none ∨ card.url = some "") → enrichCard card e = card) ∧
    (∀ s, card.content = some s → pyStrip s ≠ "" →
      (enrichCard card e).content = some s ∨
        (enrichCard card e).content = some (pyStrip s)) ∧
    (∀ s, card.publish_time = some s → pyStrip s ≠ "" →
      (enrichCard card e).publish_time = some s ∨
        (enrichCard card e).publish_time = some (pyStrip s)) ∧
    (∀ n : Int, card.like_count = some n → n ≠ 0 →
      (enrichCard card e).like_count = some n) := by
  by_cases hskip : card.url = none ∨ card.url = some ""
  · rw [enrichCard_skip e hskip]
    exact ⟨rfl, rfl, rfl, rfl, rfl, rfl, rfl, fun _ => rfl,
      fun s hs _ => Or.inl hs, fun s hs _ => Or.inl hs, fun n hn _ => hn⟩
  · have hu : ∃ u : String, card.url = some u ∧ u ≠ "" := by
      cases hc : card.url with
      | none => exact absurd (Or.inl hc) hskip
      | some u =>
        refine ⟨u, rfl, ?_⟩
        intro h0
        exact hskip (Or.inr (h0 ▸ hc))
    obtain ⟨u, hcu, h0⟩ := hu
    rw [enrichCard_visit e hcu h0]
    refine ⟨rfl, rfl, rfl, rfl, rfl, rfl, rfl, fun hc => absurd hc hskip,
      ?_, ?_, ?_⟩
    · intro s hs hsne
      refine Or.inr ?_
      show firstNonEmpty [card.content, e.content] = some (pyStrip s)
      rw [hs]
      exact firstNonEmpty_keep _ hsne
    · intro s hs hsne
      refine Or.inr ?_
      show firstNonEmpty [card.publish_time, e.publish_time] = some (pyStrip s)
      rw [hs]
      exact firstNonEmpty_keep _ hsne
    · intro n hn hn0
      show (match e.like with
        | some lc =>
          match card.like_count with
          | some m => if m = 0 then some lc else some m
          | none => some lc
        | none => card.like_count) = some n
      cases e.like with
      | none => exact hn
      | some lc =>
        simp only [hn]
        rw [if_neg hn0]

/-- Witness for C9: a card with whitespace-padded content, a non-blank
publish time, and like count 7 keeps all three through enrichment against
competing fetched values. -/
theorem claim_C9_wit :
    (enrichCard enrichWitCard enrichWitFacts).like_count = some 7 ∧
    ((enrichCard enrichWitCard enrichWitFacts).content = some " 正文 " ∨
      (enrichCard enrichWitCard enrichWitFacts).content = some (pyStrip " 正文 ")) ∧
    ((enrichCard enrichWitCard enrichWitFacts).publish_time = some "昨天 10:20" ∨
      (enrichCard enrichWitCard enrichWitFacts).publish_time
        = some (pyStrip "昨天 10:20")) :=
  ⟨(claim_C9_thm enrichWitCard enrichWitFacts).2.2.2.2.2.2.2.2.2.2 7
      (by decide) (by decide),
   (claim_C9_thm enrichWitCard enrichWitFacts).2.2.2.2.2.2.2.2.1
      " 正文 " (by decide) (by decide),
   (claim_C9_thm enrichWitCard enrichWitFacts).2.2.2.2.2.2.2.2.2.1
      "昨天 10:20" (by decide) (by decide)⟩
